import Mathlib

/-
Verification development for the kalliope SONOS neuron (src/sonos.py).

The module is shallowly embedded: the stateful `Sonos` class becomes pure
functions over explicit state, and every outward effect (SoCo device command,
kalliope setting publish, warning) is recorded in an event trace.  Network
results (zone discovery, favorites retrieval, group membership queries,
communication failures) are supplied by explicit oracle values, mirroring the
exception paths the source catches.
-/

set_option autoImplicit false

namespace SonosSpec

/-- Python exception classes that `sonos.py` can raise or leak, as observed at
the neuron boundary. `sonosFailure` stands for `SonosException`,
`invalidParameter` for `InvalidParameterException`, `missingParameter` for
`MissingParameterException`; the rest are builtin Python errors escaping from
buggy lines. -/
inductive PyErr where
  | missingParameter
  | invalidParameter
  | sonosFailure
  | indexError
  | keyError
  | unboundLocalError
  deriving DecidableEq

/-- Outcome of a neuron action: normal return or a raised exception. -/
inductive Outcome where
  | ok
  | err (e : PyErr)
  deriving DecidableEq

/-- Observable effects of the neuron.  Devices are identified by their player
name (strings); favorites references are opaque and modelled as `Nat`. -/
inductive Event where
  | unjoin (d : String)
  | join (d c : String)
  | clearQueue (d : String)
  | addToQueue (d : String) (f : Nat)
  | playFromQueue (d : String) (i : Nat)
  | playCmd (d : String)
  | pauseCmd (d : String)
  | nextCmd (d : String)
  | prevCmd (d : String)
  | setMute (d : String) (b : Bool)
  | warning
  | publish (key : String) (tbl : List (String × String))
  | success
  | discoverByName (room : Option String)
  | connect (ip : String)
  deriving DecidableEq

/-- Predicate for publish events (writes to the kalliope setting store). -/
def Event.isPublish : Event → Bool
  | .publish _ _ => true
  | _ => false

/-- Predicate for queue mutations and playback-start commands on a device. -/
def Event.isQueueOrPlay : Event → Bool
  | .clearQueue _ => true
  | .addToQueue _ _ => true
  | .playFromQueue _ _ => true
  | .playCmd _ => true
  | _ => false

/-- Lookup in a Python dict modelled as an insertion-ordered association
list (`d[k]` / `k in d`). -/
def dlookup {κ α : Type} [DecidableEq κ] (k : κ) : List (κ × α) → Option α
  | [] => none
  | (k', v) :: t => if k' = k then some v else dlookup k t

/-- Insert-or-overwrite in a Python dict modelled as an insertion-ordered
association list (`d[k] = v`): an existing key keeps its position, a new key
is appended. -/
def dinsert {κ α : Type} [DecidableEq κ] (k : κ) (v : α) : List (κ × α) → List (κ × α)
  | [] => [(k, v)]
  | (k', v') :: t => if k' = k then (k, v) :: t else (k', v') :: dinsert k v t

/-
Model of Python `difflib.SequenceMatcher(None, a, b).ratio()` used at
sonos.py line 154.  `ratio` is 2*M/T where M is the total size of the
matching blocks found by the longest-matching-block recursion and
T = len(a) + len(b).  The autojunk heuristic only applies for len(b) >= 200
and is not modelled (favorite titles and spoken items are short).
-/

/-- Ascending list of the indices at which character `c` occurs in `b`;
models the `b2j` table of `SequenceMatcher`. -/
def positions (b : List Char) (c : Char) : List Nat :=
  (List.range b.length).filter (fun j => b.getD j c = c)

/-- Inner loop of `find_longest_match` for one index `i` of `a`: walk the
occurrence list of `a[i]` in `b`, extending runs recorded in the previous
row `old` of the `j2len` table, and update the best block.  The best block
is `(i0, j0, size)` preferring longer, then earlier `i`, then earlier `j`,
exactly as the strict `>` comparison in difflib does. -/
def innerLoop (old : List (Nat × Nat)) (i : Nat) (js : List Nat)
    (best : Nat × Nat × Nat) : List (Nat × Nat) × (Nat × Nat × Nat) :=
  js.foldl
    (fun (acc : List (Nat × Nat) × (Nat × Nat × Nat)) j =>
      let k := (if j = 0 then 0 else ((dlookup (j - 1) old).getD 0)) + 1
      let best' := if k > acc.2.2.2 then (i + 1 - k, j + 1 - k, k) else acc.2
      (dinsert j k acc.1, best'))
    (([] : List (Nat × Nat)), best)

/-- Longest matching block of `a` and `b` as `(i, j, size)`, modelling
`SequenceMatcher.find_longest_match` over the full ranges with no junk. -/
def flm (a b : List Char) : Nat × Nat × Nat :=
  (a.enum.foldl
    (fun (st : List (Nat × Nat) × (Nat × Nat × Nat)) ic =>
      innerLoop st.1 ic.1 (positions b ic.2) st.2)
    (([] : List (Nat × Nat)), (0, 0, 0))).2

/-- Fuelled total size of all matching blocks: the recursion of
`get_matching_blocks` (match sizes summed, which is all `ratio` needs).
The recursion depth is bounded by `a.length`, so the fuel used by
`matchTotal` below never runs out. -/
def matchTotalF : Nat → List Char → List Char → Nat
  | 0, _, _ => 0
  | fuel + 1, a, b =>
    let r := flm a b
    if r.2.2 = 0 then 0
    else
      matchTotalF fuel (a.take r.1) (b.take r.2.1) + r.2.2 +
        matchTotalF fuel (a.drop (r.1 + r.2.2)) (b.drop (r.2.1 + r.2.2))

/-- Total number of matched characters between `a` and `b`. -/
def matchTotal (a b : List Char) : Nat :=
  matchTotalF (a.length + b.length + 1) a b

/-- Model of `SequenceMatcher(None, a, b).ratio()`: `2*M/T` as an exact
rational (Python computes it in floating point; for the short strings in
play here the comparisons agree).  `ratio` of two empty strings is 1. -/
def simScore (a b : String) : ℚ :=
  if a.data.length + b.data.length = 0 then 1
  else (2 * (matchTotal a.data b.data : ℚ)) / ((a.data.length + b.data.length : ℕ) : ℚ)

/-- Score map built by sonos.py lines 152-155: a dict keyed by the ratio,
valued by the favorite title, filled in favorites-iteration order, so equal
ratios overwrite (last favorite with a given score wins). -/
def resultsMap (it : String) (favs : List String) : List (ℚ × String) :=
  favs.foldl (fun m f => dinsert (simScore it f) f m) []

/-- Descending insertion used to model `sorted(keys, reverse=True)`. -/
def insertDesc (x : ℚ) : List ℚ → List ℚ
  | [] => [x]
  | y :: ys => if y ≤ x then x :: y :: ys else y :: insertDesc x ys

/-- Descending sort of the score keys, modelling
`sorted(results.keys(), reverse=True)`. -/
def sortDesc : List ℚ → List ℚ
  | [] => []
  | x :: xs => insertDesc x (sortDesc xs)

/-- Best-match selection of sonos.py lines 152-157: build the score map,
sort its keys descending, take the first key ([0], an IndexError on an empty
map, modelled as `none`), and look the winning title up in the score map. -/
def pick (it : String) (favs : List String) : Option String :=
  match sortDesc ((resultsMap it favs).map Prod.fst) with
  | [] => none
  | k :: _ => dlookup k (resultsMap it favs)

/-
State and oracle types for the neuron actions.
-/

/-- Result of `player.group.coordinator != player` and of the (un)join calls
for one non-coordinator member of a room, supplied as an oracle.
`checkFails` models a communication failure while reading `player.group`;
`selfCoord` is true when the member is already the coordinator of its own
group; `unjoinFails`/`joinFails` model failures of the respective calls.
All four failure points sit inside one `try` whose handler prints a warning
(sonos.py lines 143-150). -/
structure MemberOracle where
  checkFails : Bool
  selfCoord : Bool
  unjoinFails : Bool
  joinFails : Bool

/-- One entry of `soco.visible_zones`: the player name and whether reading
its attributes times out (sonos.py lines 218-224). -/
structure ZoneInfo where
  name : String
  offline : Bool
  deriving DecidableEq

/-- Network results consumed by `do_sync`: `discovery = none` models a
communication failure enumerating `visible_zones` (lines 225-226),
`favs = none` a failure retrieving favorites (lines 252-253). -/
structure SyncInput where
  discovery : Option (List ZoneInfo)
  favs : Option (List (String × Nat))
  deriving DecidableEq

/-- Network results consumed by `do_init`: whether discovery by name found a
device (line 102), and the `SoCo(ipv4)` path result (`none` = communication
failure caught at lines 109-110, `some b` = the `is_visible` value read at
line 107). -/
structure InitOracle where
  byNameFound : Bool
  connect : Option Bool
  deriving DecidableEq

/-- All oracles a neuron invocation may consume. -/
structure Oracles where
  init : InitOracle
  member : String → MemberOracle
  sync : SyncInput

/-- Keyword arguments of a neuron invocation.  The `rooms` init parameter is
taken already normalized to name → member-name-list form (the
`literal_eval`/string-to-singleton normalization of lines 117-125 is not
itself under test). -/
structure Kwargs where
  room : Option String := none
  ipv4 : Option String := none
  item : Option String := none
  rooms : List (String × List String) := []

/-- Class-level state of the `Sonos` neuron as read by the handlers:
whether `klass.soco` is set, `klass.config['room']`, `klass.sonos['rooms']`,
`klass.sonos['favorites']` and `klass.config['rooms']`. -/
structure NeuronState where
  socoInit : Bool
  dfltRoom : Option String
  rooms : List (String × List String)
  favorites : List (String × Nat)
  cfgRooms : List (String × List String)

/-- Room resolution `kwargs.get('room', klass.config['room'])` shared by all
playback handlers. -/
def resolveRoom (room? dflt : Option String) : Option String :=
  match room? with
  | some r => some r
  | none => dflt

/-- Membership lookup of the resolved room key in the room table; a `none`
key (no room given and no default recorded) is never a dict key, matching
Python `None in d` being false. -/
def roomDevices (rooms : List (String × List String)) (key : Option String) :
    Option (List String) :=
  match key with
  | none => none
  | some r => dlookup r rooms

/-
Model of do_sync (sonos.py lines 212-257).
-/

/-- Zone discovery of lines 216-226: on a communication failure the zone
table is left empty with a warning; otherwise each visible player is added
under its name, players timing out being skipped with a warning.  (The
`ZoneGroup` coordinator-coalescing of line 219 is identity on the already
named players modelled here.) -/
def zoneScan : Option (List ZoneInfo) → List (String × String) × List Event
  | none => ([], [Event.warning])
  | some zs =>
    (zs.foldl (fun m z => if z.offline then m else dinsert z.name z.name m) [],
     zs.filterMap (fun z => if z.offline then some Event.warning else none))

/-- Member resolution of lines 236-240 for one user-defined room: members
found in the zone table are appended; at the first unknown member the
warning on line 240 evaluates `member.label` on a `str`, raising
`AttributeError`, which aborts the whole merge loop (flag `true`). -/
def resolveMembers (zones : List (String × String)) : List String → List String × Bool
  | [] => ([], false)
  | m :: ms =>
    match dlookup m zones with
    | some d =>
      let r := resolveMembers zones ms
      (d :: r.1, r.2)
    | none => ([], true)

/-- User-room merge loop of lines 232-242.  A name collision with an
existing room reaches the warning on line 242, which references the
undefined name `room`, raising `NameError` and aborting the loop (flag
`true`); an unresolved member aborts likewise via `resolveMembers`, leaving
the partially filled room in the table.  The `BaseException` handler at
line 243 absorbs the abort. -/
def mergeRooms (zones : List (String × String)) (rooms : List (String × List String)) :
    List (String × List String) → List (String × List String) × Bool
  | [] => (rooms, false)
  | (name, members) :: rest =>
    if (dlookup name rooms).isSome then (rooms, true)
    else
      let r := resolveMembers zones members
      if r.2 then (dinsert name r.1 rooms, true)
      else mergeRooms zones (dinsert name r.1 rooms) rest

/-- Case-insensitive publish payload of lines 246 and 256:
`{k.lower(): k for k, v in tbl.items()}`. -/
def lowerTable {α : Type} (tbl : List (String × α)) : List (String × String) :=
  tbl.foldl (fun m p => dinsert p.1.toLower p.1 m) []

/-- Model of `do_sync` (lines 212-257).  The previous tables `prev` are
reset unread (lines 214-215 and 248), zones are discovered, one room per
zone is created, user rooms are merged (with the abort behavior above), the
room table is published from the `finally` at line 246, favorites are
fetched (empty plus warning on failure) and published from the `finally` at
line 256, and a success message ends every run. -/
def do_sync (prev : List (String × List String) × List (String × Nat))
    (cfg : List (String × List String)) (inp : SyncInput) :
    (List (String × List String) × List (String × Nat)) × List Event :=
  let zs := zoneScan inp.discovery
  let auto := zs.1.map (fun p => (p.1, [p.2]))
  let m := mergeRooms zs.1 auto cfg
  let fv : List (String × Nat) × List Event :=
    match inp.favs with
    | some fs => (fs.foldl (fun acc p => dinsert p.1 p.2 acc) [], [])
    | none => ([], [Event.warning])
  ((m.1, fv.1),
    zs.2 ++ (if m.2 then [Event.warning] else []) ++
      [Event.publish "sonos_rooms" (lowerTable m.1)] ++
      fv.2 ++ [Event.publish "sonos_favorites" (lowerTable fv.1)] ++ [Event.success])

/-
Model of do_play (sonos.py lines 131-164).
-/

/-- Effects of the member (un)join block (lines 142-150) for one
non-coordinator member `m` of the room with coordinator `c`: the group
check may fail (warning, member skipped), otherwise the member is unjoined
exactly when it is not its own group coordinator and then joined to `c`;
a failing call leaves a warning and skips the rest of the member's block. -/
def memberTrace (c m : String) (o : MemberOracle) : List Event :=
  if o.checkFails then [Event.warning]
  else
    (if o.selfCoord then [] else [Event.unjoin m]) ++
      (if o.selfCoord = false ∧ o.unjoinFails then [Event.warning]
       else Event.join m c :: (if o.joinFails then [Event.warning] else []))

/-- Model of `do_play` (lines 131-164): resolve the room (InvalidParameter
when absent), take the first device as coordinator (`[0]`, IndexError on an
empty member list), unjoin the coordinator and regroup the remaining
members, then either play the best favorite match (clear queue, enqueue,
play from index 0) or — in the no-item branch — hit the debug call of line
163, whose format arguments reference the unassigned local `result`,
raising `UnboundLocalError` before `soco.play()` is reached. -/
def do_play (rooms : List (String × List String)) (favorites : List (String × Nat))
    (dflt room? item : Option String) (oracle : String → MemberOracle) :
    List Event × Outcome :=
  match roomDevices rooms (resolveRoom room? dflt) with
  | none => ([], Outcome.err PyErr.invalidParameter)
  | some [] => ([], Outcome.err PyErr.indexError)
  | some (c :: rest) =>
    let tr := Event.unjoin c :: rest.flatMap (fun m => memberTrace c m (oracle m))
    match item with
    | none => (tr, Outcome.err PyErr.unboundLocalError)
    | some it =>
      match pick it (favorites.map Prod.fst) with
      | none => (tr, Outcome.err PyErr.indexError)
      | some title =>
        match dlookup title favorites with
        | none => (tr, Outcome.err PyErr.keyError)
        | some fav =>
          (tr ++ [Event.clearQueue c, Event.addToQueue c fav, Event.playFromQueue c 0],
           Outcome.ok)

/-
Models of the transport handlers (sonos.py lines 167-209).
-/

/-- Model of `do_pause` (lines 167-173), also dispatched for action `stop`. -/
def do_pause (rooms : List (String × List String)) (dflt room? : Option String) :
    List Event × Outcome :=
  match roomDevices rooms (resolveRoom room? dflt) with
  | none => ([], Outcome.err PyErr.invalidParameter)
  | some [] => ([], Outcome.err PyErr.indexError)
  | some (c :: _) => ([Event.pauseCmd c], Outcome.ok)

/-- Model of `do_next` (lines 176-182). -/
def do_next (rooms : List (String × List String)) (dflt room? : Option String) :
    List Event × Outcome :=
  match roomDevices rooms (resolveRoom room? dflt) with
  | none => ([], Outcome.err PyErr.invalidParameter)
  | some [] => ([], Outcome.err PyErr.indexError)
  | some (c :: _) => ([Event.nextCmd c], Outcome.ok)

/-- Model of `do_prev` (lines 185-191). -/
def do_prev (rooms : List (String × List String)) (dflt room? : Option String) :
    List Event × Outcome :=
  match roomDevices rooms (resolveRoom room? dflt) with
  | none => ([], Outcome.err PyErr.invalidParameter)
  | some [] => ([], Outcome.err PyErr.indexError)
  | some (c :: _) => ([Event.prevCmd c], Outcome.ok)

/-- Model of `do_mute` (lines 194-200). -/
def do_mute (rooms : List (String × List String)) (dflt room? : Option String) :
    List Event × Outcome :=
  match roomDevices rooms (resolveRoom room? dflt) with
  | none => ([], Outcome.err PyErr.invalidParameter)
  | some [] => ([], Outcome.err PyErr.indexError)
  | some (c :: _) => ([Event.setMute c true], Outcome.ok)

/-- Model of `do_unmute` (lines 203-209). -/
def do_unmute (rooms : List (String × List String)) (dflt room? : Option String) :
    List Event × Outcome :=
  match roomDevices rooms (resolveRoom room? dflt) with
  | none => ([], Outcome.err PyErr.invalidParameter)
  | some [] => ([], Outcome.err PyErr.indexError)
  | some (c :: _) => ([Event.setMute c false], Outcome.ok)

/-
IPv4 validation model (Python ipaddress module, used at sonos.py line 83).
-/

/-- Modelled from the spec and the Python `ipaddress` stdlib: one dotted
octet as accepted by `IPv4Address` — 1 to 3 decimal digits, no leading
zero, value at most 255. -/
def parseOctet (cs : List Char) : Option Nat :=
  if cs = [] then none
  else if 3 < cs.length then none
  else if cs.any (fun c => !c.isDigit) then none
  else if 1 < cs.length ∧ cs.getD 0 ' ' = '0' then none
  else
    let n := cs.foldl (fun acc c => acc * 10 + (c.toNat - 48)) 0
    if n ≤ 255 then some n else none

/-- Split a character list at every dot, keeping empty parts, as Python
`s.split(".")` does. -/
def splitDots : List Char → List (List Char)
  | [] => [[]]
  | c :: cs =>
    if c = '.' then [] :: splitDots cs
    else
      match splitDots cs with
      | [] => [[c]]
      | p :: ps => (c :: p) :: ps

/-- Modelled from the spec and the Python `ipaddress` stdlib: parse a dotted
quad into its 32-bit value, `none` on any malformed input (the `ValueError`
branch of sonos.py line 85). -/
def parseIPv4 (s : String) : Option Nat :=
  match (splitDots s.data).map parseOctet with
  | [some a, some b, some c, some d] => some (((a * 256 + b) * 256 + c) * 256 + d)
  | _ => none

/-- Membership of an address in a CIDR network given as (base, prefix
length). -/
def inNet (addr : Nat) (net : Nat × Nat) : Bool :=
  addr / 2 ^ (32 - net.2) = net.1 / 2 ^ (32 - net.2)

/-- Modelled from the Python `ipaddress` stdlib: the IPv4 private-network
list backing `IPv4Address.is_private`. -/
def privateNets : List (Nat × Nat) :=
  [(0, 8), (10 * 16777216, 8), (127 * 16777216, 8),
   (169 * 16777216 + 254 * 65536, 16), (172 * 16777216 + 16 * 65536, 12),
   (192 * 16777216, 29), (192 * 16777216 + 170, 31),
   (192 * 16777216 + 2 * 256, 24), (192 * 16777216 + 168 * 65536, 16),
   (198 * 16777216 + 18 * 65536, 15),
   (198 * 16777216 + 51 * 65536 + 100 * 256, 24),
   (203 * 16777216 + 113 * 256, 24), (240 * 16777216, 4), (2 ^ 32 - 1, 32)]

/-- Modelled from the Python `ipaddress` stdlib: `IPv4Address.is_global`,
i.e. not in the shared-address space 100.64.0.0/10 and not private. -/
def isGlobal (addr : Nat) : Bool :=
  !inNet addr (100 * 16777216 + 64 * 65536, 10) && !privateNets.any (inNet addr)

/-
Model of do_init (sonos.py lines 95-128) and of the dispatch in __init__
(lines 35-63) with _is_parameters_ok (lines 65-92).
-/

/-- Model of `do_init` (lines 95-128): acquire a `SoCo` handle either by
name discovery or by direct address (failing with `SonosException` on a
communication error, a non-visible direct target, or a failed discovery),
then run `do_sync` and require the configured default room to be a key of
the resulting room table, raising `InvalidParameterException` otherwise
(line 128).  The class-config bookkeeping of lines 114-125 has no further
observable effect here and `prev` are the tables being replaced. -/
def do_init (prev : List (String × List String) × List (String × Nat))
    (ipv4 room? : Option String) (cfg : List (String × List String))
    (o : Oracles) : List Event × Outcome :=
  match ipv4 with
  | none =>
    if o.init.byNameFound then
      let s := do_sync prev cfg o.sync
      (Event.discoverByName room? :: s.2,
        if (roomDevices s.1.1 room?).isSome then Outcome.ok
        else Outcome.err PyErr.invalidParameter)
    else ([Event.discoverByName room?], Outcome.err PyErr.sonosFailure)
  | some ip =>
    match o.init.connect with
    | none => ([Event.connect ip], Outcome.err PyErr.sonosFailure)
    | some false => ([Event.connect ip], Outcome.err PyErr.sonosFailure)
    | some true =>
      let s := do_sync prev cfg o.sync
      (Event.connect ip :: s.2,
        if (roomDevices s.1.1 room?).isSome then Outcome.ok
        else Outcome.err PyErr.invalidParameter)

/-- Handler signature shared by every entry of the action table. -/
def HandlerFn : Type :=
  Kwargs → NeuronState → Oracles → List Event × Outcome

/-- Wrapper for `do_init` in the action table. -/
def initHandler : HandlerFn :=
  fun kw st o => do_init (st.rooms, st.favorites) kw.ipv4 kw.room kw.rooms o

/-- Wrapper for `do_play` in the action table. -/
def playHandler : HandlerFn :=
  fun kw st o => do_play st.rooms st.favorites st.dfltRoom kw.room kw.item o.member

/-- Wrapper for `do_pause` in the action table (actions `pause` and `stop`). -/
def pauseHandler : HandlerFn :=
  fun kw st _ => do_pause st.rooms st.dfltRoom kw.room

/-- Wrapper for `do_next` in the action table. -/
def nextHandler : HandlerFn :=
  fun kw st _ => do_next st.rooms st.dfltRoom kw.room

/-- Wrapper for `do_prev` in the action table. -/
def prevHandler : HandlerFn :=
  fun kw st _ => do_prev st.rooms st.dfltRoom kw.room

/-- Wrapper for `do_mute` in the action table. -/
def muteHandler : HandlerFn :=
  fun kw st _ => do_mute st.rooms st.dfltRoom kw.room

/-- Wrapper for `do_unmute` in the action table. -/
def unmuteHandler : HandlerFn :=
  fun kw st _ => do_unmute st.rooms st.dfltRoom kw.room

/-- Wrapper for `do_sync` as a standalone action. -/
def syncHandler : HandlerFn :=
  fun _ st o => ((do_sync (st.rooms, st.favorites) st.cfgRooms o.sync).2, Outcome.ok)

/-- Action table of `Sonos.__init__` (sonos.py lines 38-47); note `stop` and
`pause` map to the same handler. -/
def actionsMap : List (String × HandlerFn) :=
  [("init", initHandler), ("play", playHandler), ("pause", pauseHandler),
   ("stop", pauseHandler), ("next", nextHandler), ("previous", prevHandler),
   ("mute", muteHandler), ("unmute", unmuteHandler), ("sync", syncHandler)]

/-- Result of `_is_parameters_ok`: an exception, `True`, or `False` (the
uninitialized-neuron warning path of lines 88-91). -/
inductive ParamCheck where
  | fail (e : PyErr)
  | proceed
  | refuse
  deriving DecidableEq

/-- Model of `_is_parameters_ok` (lines 65-92): missing or unknown action,
then for `init` a required `room` and an optional `ipv4` that must parse
and must not be a global address; for every other action only the
initialized-`soco` check. -/
def isParametersOk (action : Option String) (kw : Kwargs) (st : NeuronState) :
    ParamCheck :=
  match action with
  | none => ParamCheck.fail PyErr.missingParameter
  | some a =>
    if (dlookup a actionsMap).isNone then ParamCheck.fail PyErr.invalidParameter
    else if a = "init" then
      match kw.room with
      | none => ParamCheck.fail PyErr.invalidParameter
      | some _ =>
        match kw.ipv4 with
        | none => ParamCheck.proceed
        | some s =>
          match parseIPv4 s with
          | none => ParamCheck.fail PyErr.invalidParameter
          | some addr =>
            if isGlobal addr then ParamCheck.fail PyErr.invalidParameter
            else ParamCheck.proceed
    else if st.socoInit then ParamCheck.proceed
    else ParamCheck.refuse

/-- The empty-room scrub of lines 59-60: `if kwargs.get('room') == "": del
kwargs['room']`, applied after validation and before dispatch. -/
def scrubRoom (kw : Kwargs) : Kwargs :=
  if kw.room = some "" then { kw with room := none } else kw

/-- Model of a full neuron invocation (`Sonos.__init__`, lines 35-63):
validate parameters, raise `SonosException` when validation refuses
(line 63), scrub an empty `room`, and dispatch through the action table. -/
def runNeuron (action : Option String) (kw : Kwargs) (st : NeuronState)
    (o : Oracles) : List Event × Outcome :=
  match isParametersOk action kw st with
  | ParamCheck.fail e => ([], Outcome.err e)
  | ParamCheck.refuse => ([], Outcome.err PyErr.sonosFailure)
  | ParamCheck.proceed =>
    match action with
    | none => ([], Outcome.err PyErr.missingParameter)
    | some a =>
      match dlookup a actionsMap with
      | none => ([], Outcome.err PyErr.invalidParameter)
      | some h => h (scrubRoom kw) st o

/-
Lemmas about the dict model.
-/

lemma dlookup_mem {κ α : Type} [DecidableEq κ] {k : κ} {v : α} :
    ∀ {m : List (κ × α)}, dlookup k m = some v → (k, v) ∈ m := by
  intro m
  induction m with
  | nil => intro h; simp [dlookup] at h
  | cons p t ih =>
    intro h
    obtain ⟨k', v'⟩ := p
    rw [dlookup] at h
    by_cases hk : k' = k
    · rw [if_pos hk] at h
      subst hk
      exact List.mem_cons.mpr (Or.inl (by simpa using h.symm))
    · rw [if_neg hk] at h
      exact List.mem_cons.mpr (Or.inr (ih h))

lemma dlookup_mem_keys {κ α : Type} [DecidableEq κ] {k : κ} :
    ∀ {m : List (κ × α)}, k ∈ m.map Prod.fst → ∃ v, dlookup k m = some v := by
  intro m
  induction m with
  | nil => intro h; simp at h
  | cons p t ih =>
    intro h
    obtain ⟨k', v'⟩ := p
    rw [List.map_cons] at h
    by_cases hk : k' = k
    · exact ⟨v', by rw [dlookup, if_pos hk]⟩
    · have hmem : k ∈ t.map Prod.fst := by
        rcases List.mem_cons.mp h with h1 | h1
        · exact absurd h1.symm hk
        · exact h1
      obtain ⟨v, hv⟩ := ih hmem
      exact ⟨v, by rw [dlookup, if_neg hk]; exact hv⟩

lemma mem_dinsert {κ α : Type} [DecidableEq κ] {k : κ} {v : α} {p : κ × α} :
    ∀ {m : List (κ × α)}, p ∈ dinsert k v m → p = (k, v) ∨ p ∈ m := by
  intro m
  induction m with
  | nil => intro h; simp [dinsert] at h; exact Or.inl h
  | cons q t ih =>
    intro h
    obtain ⟨k', v'⟩ := q
    rw [dinsert] at h
    by_cases hk : k' = k
    · rw [if_pos hk] at h
      rcases List.mem_cons.mp h with h1 | h1
      · exact Or.inl h1
      · exact Or.inr (List.mem_cons.mpr (Or.inr h1))
    · rw [if_neg hk] at h
      rcases List.mem_cons.mp h with h1 | h1
      · exact Or.inr (List.mem_cons.mpr (Or.inl h1))
      · rcases ih h1 with h2 | h2
        · exact Or.inl h2
        · exact Or.inr (List.mem_cons.mpr (Or.inr h2))

lemma dinsert_key_mem {κ α : Type} [DecidableEq κ] (k : κ) (v : α) :
    ∀ (m : List (κ × α)), k ∈ (dinsert k v m).map Prod.fst := by
  intro m
  induction m with
  | nil => simp [dinsert]
  | cons q t ih =>
    obtain ⟨k', v'⟩ := q
    rw [dinsert]
    by_cases hk : k' = k
    · rw [if_pos hk]; simp
    · rw [if_neg hk]; simpa using Or.inr ih

lemma dinsert_keys_mono {κ α : Type} [DecidableEq κ] {k : κ} (k₀ : κ) (v₀ : α) :
    ∀ {m : List (κ × α)}, k ∈ m.map Prod.fst → k ∈ (dinsert k₀ v₀ m).map Prod.fst := by
  intro m
  induction m with
  | nil => intro h; simp at h
  | cons q t ih =>
    intro h
    obtain ⟨k', v'⟩ := q
    rw [List.map_cons] at h
    rw [dinsert]
    rcases List.mem_cons.mp h with h1 | h1
    · by_cases hk : k' = k₀
      · rw [if_pos hk]
        rw [List.map_cons]
        exact List.mem_cons.mpr (Or.inl (h1.trans hk))
      · rw [if_neg hk]
        rw [List.map_cons]
        exact List.mem_cons.mpr (Or.inl h1)
    · by_cases hk : k' = k₀
      · rw [if_pos hk]
        rw [List.map_cons]
        exact List.mem_cons.mpr (Or.inr h1)
      · rw [if_neg hk]
        rw [List.map_cons]
        exact List.mem_cons.mpr (Or.inr (ih h1))

lemma dinsert_ne_nil {κ α : Type} [DecidableEq κ] (k : κ) (v : α) :
    ∀ (m : List (κ × α)), dinsert k v m ≠ [] := by
  intro m
  cases m with
  | nil => simp [dinsert]
  | cons q t =>
    obtain ⟨k', v'⟩ := q
    rw [dinsert]
    by_cases hk : k' = k
    · rw [if_pos hk]; simp
    · rw [if_neg hk]; simp

/-
Lemmas about the score map and descending sort backing `pick`.
-/

lemma foldl_dinsert_inv (it : String) (P : ℚ × String → Prop) :
    ∀ (l : List String) (acc : List (ℚ × String)),
      (∀ p ∈ acc, P p) → (∀ f ∈ l, P (simScore it f, f)) →
      ∀ p ∈ l.foldl (fun m f => dinsert (simScore it f) f m) acc, P p := by
  intro l
  induction l with
  | nil => intro acc hacc _ p hp; exact hacc p hp
  | cons f fs ih =>
    intro acc hacc hl p hp
    refine ih (dinsert (simScore it f) f acc) ?_ ?_ p hp
    · intro q hq
      rcases mem_dinsert hq with h1 | h1
      · subst h1; exact hl f (List.mem_cons_self f fs)
      · exact hacc q h1
    · intro g hg; exact hl g (List.mem_cons.mpr (Or.inr hg))

lemma foldl_keys_mono (it : String) {k : ℚ} :
    ∀ (l : List String) (acc : List (ℚ × String)), k ∈ acc.map Prod.fst →
      k ∈ (l.foldl (fun m f => dinsert (simScore it f) f m) acc).map Prod.fst := by
  intro l
  induction l with
  | nil => intro acc h; exact h
  | cons f fs ih =>
    intro acc h
    exact ih (dinsert (simScore it f) f acc) (dinsert_keys_mono _ _ h)

lemma foldl_key_covers (it : String) {g : String} :
    ∀ (l : List String) (acc : List (ℚ × String)), g ∈ l →
      simScore it g ∈ (l.foldl (fun m f => dinsert (simScore it f) f m) acc).map Prod.fst := by
  intro l
  induction l with
  | nil => intro acc h; simp at h
  | cons f fs ih =>
    intro acc h
    rcases List.mem_cons.mp h with h1 | h1
    · subst h1
      exact foldl_keys_mono it fs _ (dinsert_key_mem _ _ acc)
    · exact ih _ h1

lemma foldl_ne_nil (it : String) :
    ∀ (l : List String) (acc : List (ℚ × String)), acc ≠ [] →
      l.foldl (fun m f => dinsert (simScore it f) f m) acc ≠ [] := by
  intro l
  induction l with
  | nil => intro acc h; exact h
  | cons f fs ih => intro acc _; exact ih _ (dinsert_ne_nil _ _ acc)

lemma resultsMap_ne_nil (it : String) {favs : List String} (h : favs ≠ []) :
    resultsMap it favs ≠ [] := by
  cases favs with
  | nil => exact absurd rfl h
  | cons f fs =>
    rw [resultsMap, List.foldl_cons]
    exact foldl_ne_nil it fs _ (dinsert_ne_nil _ _ [])

lemma mem_insertDesc {a x : ℚ} : ∀ {l : List ℚ}, a ∈ insertDesc x l ↔ a = x ∨ a ∈ l := by
  intro l
  induction l with
  | nil => simp [insertDesc]
  | cons y ys ih =>
    rw [insertDesc]
    by_cases hyx : y ≤ x
    · rw [if_pos hyx]; simp
    · rw [if_neg hyx]
      constructor
      · intro h
        rcases List.mem_cons.mp h with h1 | h1
        · exact Or.inr (List.mem_cons.mpr (Or.inl h1))
        · rcases ih.mp h1 with h2 | h2
          · exact Or.inl h2
          · exact Or.inr (List.mem_cons.mpr (Or.inr h2))
      · intro h
        rcases h with h1 | h1
        · exact List.mem_cons.mpr (Or.inr (ih.mpr (Or.inl h1)))
        · rcases List.mem_cons.mp h1 with h2 | h2
          · exact List.mem_cons.mpr (Or.inl h2)
          · exact List.mem_cons.mpr (Or.inr (ih.mpr (Or.inr h2)))

lemma mem_sortDesc {a : ℚ} : ∀ {l : List ℚ}, a ∈ sortDesc l ↔ a ∈ l := by
  intro l
  induction l with
  | nil => simp [sortDesc]
  | cons x xs ih =>
    rw [sortDesc]
    constructor
    · intro h
      rcases mem_insertDesc.mp h with h1 | h1
      · exact List.mem_cons.mpr (Or.inl h1)
      · exact List.mem_cons.mpr (Or.inr (ih.mp h1))
    · intro h
      rcases List.mem_cons.mp h with h1 | h1
      · exact mem_insertDesc.mpr (Or.inl h1)
      · exact mem_insertDesc.mpr (Or.inr (ih.mpr h1))

lemma sortDesc_head_ge :
    ∀ {l : List ℚ} {k : ℚ} {t : List ℚ}, sortDesc l = k :: t → ∀ x ∈ l, x ≤ k := by
  intro l
  induction l with
  | nil => intro k t h; simp [sortDesc] at h
  | cons a as ih =>
    intro k t h x hx
    rw [sortDesc] at h
    rcases hs : sortDesc as with _ | ⟨y, ys⟩
    · rw [hs, insertDesc] at h
      have hk : k = a := by simpa using congrArg (fun l => l.headD 0) h.symm
      subst hk
      rcases List.mem_cons.mp hx with h1 | h1
      · exact le_of_eq h1
      · exact absurd (mem_sortDesc.mpr h1) (by rw [hs]; simp)
    · rw [hs, insertDesc] at h
      by_cases hya : y ≤ a
      · rw [if_pos hya] at h
        have hk : k = a := (List.cons_eq_cons.mp h).1.symm
        subst hk
        rcases List.mem_cons.mp hx with h1 | h1
        · exact le_of_eq h1
        · exact le_trans (ih hs x h1) hya
      · rw [if_neg hya] at h
        have hk : k = y := (List.cons_eq_cons.mp h).1.symm
        subst hk
        rcases List.mem_cons.mp hx with h1 | h1
        · exact le_of_lt (h1 ▸ lt_of_not_le hya)
        · exact ih hs x h1

/-- Specification of the best-match selection at sonos.py lines 151-157: on
a non-empty favorites list, `pick` returns one of the favorites, and its
similarity score to the spoken item is maximal among all favorites. -/
lemma pick_spec (it : String) {favs : List String} (h : favs ≠ []) :
    ∃ f, pick it favs = some f ∧ f ∈ favs ∧
      ∀ g ∈ favs, simScore it g ≤ simScore it f := by
  have hres : resultsMap it favs ≠ [] := resultsMap_ne_nil it h
  have hkeys : (resultsMap it favs).map Prod.fst ≠ [] := by
    simpa using hres
  obtain ⟨k, t, hsort⟩ : ∃ k t,
      sortDesc ((resultsMap it favs).map Prod.fst) = k :: t := by
    rcases hs : sortDesc ((resultsMap it favs).map Prod.fst) with _ | ⟨k, t⟩
    · exfalso
      rcases hk : (resultsMap it favs).map Prod.fst with _ | ⟨a, l⟩
      · exact hkeys hk
      · have : a ∈ sortDesc ((resultsMap it favs).map Prod.fst) :=
          mem_sortDesc.mpr (by rw [hk]; simp)
        rw [hs] at this
        simp at this
    · exact ⟨k, t, rfl⟩
  have hkmem : k ∈ (resultsMap it favs).map Prod.fst :=
    mem_sortDesc.mp (by rw [hsort]; simp)
  obtain ⟨f, hf⟩ := dlookup_mem_keys hkmem
  have hpair : (k, f) ∈ resultsMap it favs := dlookup_mem hf
  have hinv : simScore it f = k ∧ f ∈ favs := by
    have := foldl_dinsert_inv it (fun p => simScore it p.2 = p.1 ∧ p.2 ∈ favs) favs []
      (by intro p hp; simp at hp) (by intro g hg; exact ⟨rfl, hg⟩) (k, f) hpair
    simpa using this
  refine ⟨f, ?_, hinv.2, ?_⟩
  · rw [pick, hsort]; exact hf
  · intro g hg
    have hkey : simScore it g ∈ (resultsMap it favs).map Prod.fst :=
      foldl_key_covers it favs [] hg
    have := sortDesc_head_ge hsort _ hkey
    rw [hinv.1]
    exact this

/-
Further trace lemmas shared by the play-action claims.
-/

lemma memberTrace_no_queue (c m : String) (o : MemberOracle) :
    (memberTrace c m o).filter Event.isQueueOrPlay = [] := by
  rcases o with ⟨cf, sc, uf, jf⟩
  cases cf <;> cases sc <;> cases uf <;> cases jf <;> rfl

lemma memberTraces_no_queue (c : String) (oracle : String → MemberOracle) :
    ∀ (rest : List String),
      (rest.flatMap (fun m => memberTrace c m (oracle m))).filter Event.isQueueOrPlay = [] := by
  intro rest
  induction rest with
  | nil => rfl
  | cons m ms ih =>
    rw [List.flatMap_cons, List.filter_append, ih, memberTrace_no_queue]
    rfl

lemma memberTrace_noFail (c m : String) (o : MemberOracle) (h1 : o.checkFails = false)
    (h2 : o.unjoinFails = false) (h3 : o.joinFails = false) :
    memberTrace c m o =
      (if o.selfCoord then [] else [Event.unjoin m]) ++ [Event.join m c] := by
  rcases o with ⟨cf, sc, uf, jf⟩
  subst h1 h2 h3
  cases sc <;> rfl

lemma memberTraces_noFail (c : String) (oracle : String → MemberOracle)
    (h : ∀ m, (oracle m).checkFails = false ∧ (oracle m).unjoinFails = false ∧
      (oracle m).joinFails = false) :
    ∀ (rest : List String),
      rest.flatMap (fun m => memberTrace c m (oracle m)) =
        rest.flatMap (fun m =>
          (if (oracle m).selfCoord then [] else [Event.unjoin m]) ++ [Event.join m c]) := by
  intro rest
  induction rest with
  | nil => rfl
  | cons m ms ih =>
    rw [List.flatMap_cons, List.flatMap_cons, ih,
      memberTrace_noFail c m (oracle m) (h m).1 (h m).2.1 (h m).2.2]

lemma zoneScan_events_no_publish :
    ∀ (d : Option (List ZoneInfo)), ((zoneScan d).2).filter Event.isPublish = [] := by
  intro d
  cases d with
  | none => rfl
  | some zs =>
    rw [zoneScan]
    induction zs with
    | nil => rfl
    | cons z t ih =>
      rw [List.filterMap_cons]
      cases hz : z.offline
      · simpa using ih
      · simpa [List.filter_cons, Event.isPublish] using ih

/-
Claim theorems.
-/

/-- C1 (code bug): sync with one visible device "Kitchen" and user rooms
"Everywhere" = ["Garage"] (unknown member) then "Upstairs" = ["Kitchen"]
(resolvable member).  The claim — unresolved members are skipped with a
warning and all remaining configured rooms are still processed — fails on
the code: the skip warning of sonos.py line 240 evaluates `member.label` on
a `str` (`AttributeError`) and the collision warning of line 242 references
the undefined name `room` (`NameError`), so the `except BaseException` at
line 243 abandons the rest of the merge.  Here "Upstairs" is never created;
the second conjunct shows the collision case likewise dropping "Den". -/
theorem c1_sync_merge_aborts :
    ((do_sync ([], []) [("Everywhere", ["Garage"]), ("Upstairs", ["Kitchen"])]
        ⟨some [⟨"Kitchen", false⟩], some []⟩).1.1 =
        [("Kitchen", ["Kitchen"]), ("Everywhere", [])] ∧
      dlookup "Upstairs"
        (do_sync ([], []) [("Everywhere", ["Garage"]), ("Upstairs", ["Kitchen"])]
          ⟨some [⟨"Kitchen", false⟩], some []⟩).1.1 = none) ∧
    dlookup "Den"
      (do_sync ([], []) [("Kitchen", ["Kitchen"]), ("Den", ["Kitchen"])]
        ⟨some [⟨"Kitchen", false⟩], some []⟩).1.1 = none := by
  decide

/-- C2 (code bug): play on an existing room with no item never issues the
resume command: after the coordinator unjoin, the debug call of sonos.py
line 163 formats `(result, room)` with the local `result` unassigned in
this branch, raising `UnboundLocalError` before `soco.play()` runs.  The
claim that exactly one resume command is issued fails; the trace holds no
play command and no queue mutation. -/
theorem c2_play_resume_crashes :
    do_play [("Kitchen", ["K"])] [] (some "Kitchen") none none
        (fun _ => ⟨false, false, false, false⟩) =
      ([Event.unjoin "K"], Outcome.err PyErr.unboundLocalError) := by
  decide

/-- C3: with a non-empty favorites table, the play-with-item selection
returns a favorite whose similarity score against the item is maximal
(deterministically — `pick` is a function of the favorites iteration
order, equal scores overwriting in the score dict); in particular with
favorites ["Jazz Radio", "Jazz FM"] and item "jazz radio", "Jazz Radio" is
selected (score 4/5 against 8/17). -/
theorem c3_pick_best_match (it : String) (favs : List String) (h : favs ≠ []) :
    (∃ f, pick it favs = some f ∧ f ∈ favs ∧
      ∀ g ∈ favs, simScore it g ≤ simScore it f) ∧
    pick "jazz radio" ["Jazz Radio", "Jazz FM"] = some "Jazz Radio" := by
  refine ⟨pick_spec it h, ?_⟩
  have h1 : simScore "jazz radio" "Jazz Radio" = 4 / 5 := by
    rw [simScore]
    rw [show matchTotal "jazz radio".data "Jazz Radio".data = 8 from by decide]
    rw [show "jazz radio".data.length = 10 from by decide]
    rw [show "Jazz Radio".data.length = 10 from by decide]
    norm_num
  have h2 : simScore "jazz radio" "Jazz FM" = 8 / 17 := by
    rw [simScore]
    rw [show matchTotal "jazz radio".data "Jazz FM".data = 4 from by decide]
    rw [show "jazz radio".data.length = 10 from by decide]
    rw [show "Jazz FM".data.length = 7 from by decide]
    norm_num
  simp [pick, resultsMap, dinsert, dlookup, h1, h2]
  norm_num [sortDesc, insertDesc, dlookup]

/-- Witness for C3 at favorites ["Jazz Radio", "Jazz FM"]. -/
theorem c3_pick_best_match_witness :
    (∃ f, pick "jazz radio" ["Jazz Radio", "Jazz FM"] = some f ∧
      f ∈ ["Jazz Radio", "Jazz FM"] ∧
      ∀ g ∈ ["Jazz Radio", "Jazz FM"],
        simScore "jazz radio" g ≤ simScore "jazz radio" f) ∧
    pick "jazz radio" ["Jazz Radio", "Jazz FM"] = some "Jazz Radio" :=
  c3_pick_best_match "jazz radio" ["Jazz Radio", "Jazz FM"] (by simp)

/-- C4: every run of sync discards the previous tables (the result does not
depend on them) and its event trace contains exactly the two publish
events, in order: the room table and the favorites table, each lowered to
the case-insensitive form `{k.lower(): k}` — on every path, whether zone
discovery, user-room merging, or favorites retrieval failed. -/
theorem c4_sync_always_publishes
    (prev prev₂ : List (String × List String) × List (String × Nat))
    (cfg : List (String × List String)) (inp : SyncInput) :
    do_sync prev cfg inp = do_sync prev₂ cfg inp ∧
    (do_sync prev cfg inp).2.filter Event.isPublish =
      [Event.publish "sonos_rooms" (lowerTable (do_sync prev cfg inp).1.1),
       Event.publish "sonos_favorites" (lowerTable (do_sync prev cfg inp).1.2)] := by
  refine ⟨rfl, ?_⟩
  obtain ⟨disc, favs⟩ := inp
  simp only [do_sync]
  cases favs with
  | none =>
    cases hm : (mergeRooms (zoneScan disc).1
        ((zoneScan disc).1.map (fun p => (p.1, [p.2]))) cfg).2 <;>
      simp [List.filter_append, zoneScan_events_no_publish, Event.isPublish, hm]
  | some fs =>
    cases hm : (mergeRooms (zoneScan disc).1
        ((zoneScan disc).1.map (fun p => (p.1, [p.2]))) cfg).2 <;>
      simp [List.filter_append, zoneScan_events_no_publish, Event.isPublish, hm]

/-- C5: play with an item on a room with coordinator `c` and other members
`rest` unjoins the coordinator first, then processes the members in list
order — each unjoined exactly when it is not its own group coordinator,
then joined to `c`, with communication failures leaving warnings without
aborting — and ends with the queue operations clear, enqueue, play-from-0
on the coordinator, with a normal outcome for every failure oracle. -/
theorem c5_play_grouping (rooms : List (String × List String))
    (favorites : List (String × Nat)) (dflt room? : Option String) (it : String)
    (oracle : String → MemberOracle) (c : String) (rest : List String)
    (hroom : roomDevices rooms (resolveRoom room? dflt) = some (c :: rest))
    (hfav : favorites ≠ []) :
    ∃ fav : Nat,
      do_play rooms favorites dflt room? (some it) oracle =
        ((Event.unjoin c :: rest.flatMap (fun m => memberTrace c m (oracle m))) ++
          [Event.clearQueue c, Event.addToQueue c fav, Event.playFromQueue c 0],
         Outcome.ok) ∧
      ((∀ m, (oracle m).checkFails = false ∧ (oracle m).unjoinFails = false ∧
          (oracle m).joinFails = false) →
        rest.flatMap (fun m => memberTrace c m (oracle m)) =
          rest.flatMap (fun m =>
            (if (oracle m).selfCoord then [] else [Event.unjoin m]) ++
              [Event.join m c])) := by
  have hkeys : favorites.map Prod.fst ≠ [] := by simpa using hfav
  obtain ⟨f, hpick, hfmem, _⟩ := pick_spec it hkeys
  obtain ⟨fav, hfav'⟩ := dlookup_mem_keys hfmem
  refine ⟨fav, ?_, fun h => memberTraces_noFail c oracle h rest⟩
  rw [do_play, hroom]
  simp only [hpick, hfav']

/-- Witness for C5: room "Living" with coordinator L1 and members L2, L3
already coordinating their own groups, favorite "Jazz". -/
theorem c5_play_grouping_witness :
    ∃ fav : Nat,
      do_play [("Living", ["L1", "L2", "L3"])] [("Jazz", 7)] none (some "Living")
          (some "Jazz") (fun _ => ⟨false, true, false, false⟩) =
        ((Event.unjoin "L1" ::
            ["L2", "L3"].flatMap
              (fun m => memberTrace "L1" m ((fun _ => ⟨false, true, false, false⟩) m))) ++
          [Event.clearQueue "L1", Event.addToQueue "L1" fav,
            Event.playFromQueue "L1" 0],
         Outcome.ok) ∧
      ((∀ m, ((fun (_ : String) => (⟨false, true, false, false⟩ : MemberOracle)) m).checkFails = false ∧
          ((fun (_ : String) => (⟨false, true, false, false⟩ : MemberOracle)) m).unjoinFails = false ∧
          ((fun (_ : String) => (⟨false, true, false, false⟩ : MemberOracle)) m).joinFails = false) →
        ["L2", "L3"].flatMap
            (fun m => memberTrace "L1" m ((fun _ => ⟨false, true, false, false⟩) m)) =
          ["L2", "L3"].flatMap
            (fun m =>
              (if ((fun (_ : String) => (⟨false, true, false, false⟩ : MemberOracle)) m).selfCoord
                then [] else [Event.unjoin m]) ++ [Event.join m "L1"])) :=
  c5_play_grouping [("Living", ["L1", "L2", "L3"])] [("Jazz", 7)] none
    (some "Living") "Jazz" (fun _ => ⟨false, true, false, false⟩) "L1" ["L2", "L3"]
    (by decide) (by simp)

/-- C6 (counterexample): an init whose sync produces a room table missing
the configured default room (here: discovery fails, so the table is empty)
raises `InvalidParameterException` (sonos.py line 128), not the generic
`SonosException` the claim names. -/
theorem c6_counterexample :
    (runNeuron (some "init") ⟨some "Kitchen", none, none, []⟩
        ⟨false, none, [], [], []⟩
        ⟨⟨true, some true⟩, fun _ => ⟨false, false, false, false⟩,
          ⟨none, some []⟩⟩).2 = Outcome.err PyErr.invalidParameter ∧
    (runNeuron (some "init") ⟨some "Kitchen", none, none, []⟩
        ⟨false, none, [], [], []⟩
        ⟨⟨true, some true⟩, fun _ => ⟨false, false, false, false⟩,
          ⟨none, some []⟩⟩).2 ≠ Outcome.err PyErr.sonosFailure := by
  decide

/-- C6 (amended): whenever init successfully acquires its device handle and
the post-sync room table does not contain the designated default room — in
particular when it is empty — init fails fatally with an InvalidParameter
error (not with the generic SonosFailure). -/
theorem c6_init_missing_room
    (prev : List (String × List String) × List (String × Nat))
    (ipv4 room? : Option String) (cfg : List (String × List String)) (o : Oracles)
    (hconn1 : ipv4 = none → o.init.byNameFound = true)
    (hconn2 : ∀ ip, ipv4 = some ip → o.init.connect = some true)
    (hmiss : roomDevices (do_sync prev cfg o.sync).1.1 room? = none) :
    (do_init prev ipv4 room? cfg o).2 = Outcome.err PyErr.invalidParameter := by
  cases ipv4 with
  | none =>
    rw [do_init, hconn1 rfl]
    simp [hmiss]
  | some ip =>
    rw [do_init, hconn2 ip rfl]
    simp [hmiss]

/-- Witness for C6 at the empty post-sync room table. -/
theorem c6_init_missing_room_witness :
    (do_init ([], []) none (some "Kitchen") []
        ⟨⟨true, some true⟩, fun _ => ⟨false, false, false, false⟩,
          ⟨none, some []⟩⟩).2 = Outcome.err PyErr.invalidParameter :=
  c6_init_missing_room ([], []) none (some "Kitchen") []
    ⟨⟨true, some true⟩, fun _ => ⟨false, false, false, false⟩, ⟨none, some []⟩⟩
    (fun _ => rfl) (fun ip h => by cases h) (by decide)

/-- C7: an init invocation whose ipv4 parameter is malformed or parses to a
global (non-private) address is rejected during parameter validation with
an InvalidParameter error and an empty trace — no network call or device
operation happens. -/
theorem c7_init_ipv4_validation (kw : Kwargs) (st : NeuronState) (o : Oracles)
    (s : String) (hip : kw.ipv4 = some s)
    (hbad : parseIPv4 s = none ∨ ∃ a, parseIPv4 s = some a ∧ isGlobal a = true) :
    runNeuron (some "init") kw st o = ([], Outcome.err PyErr.invalidParameter) := by
  have hcheck : isParametersOk (some "init") kw st =
      ParamCheck.fail PyErr.invalidParameter := by
    rcases hbad with hb | ⟨a, ha, hg⟩
    · cases hr : kw.room with
      | none => simp [isParametersOk, actionsMap, dlookup, hr]
      | some r => simp [isParametersOk, actionsMap, dlookup, hr, hip, hb]
    · cases hr : kw.room with
      | none => simp [isParametersOk, actionsMap, dlookup, hr]
      | some r => simp [isParametersOk, actionsMap, dlookup, hr, hip, ha, hg]
  rw [runNeuron, hcheck]

/-- Witness for C7 at the public address 8.8.8.8. -/
theorem c7_init_ipv4_validation_witness :
    runNeuron (some "init") ⟨some "Kitchen", some "8.8.8.8", none, []⟩
        ⟨false, none, [], [], []⟩
        ⟨⟨true, some true⟩, fun _ => ⟨false, false, false, false⟩,
          ⟨none, some []⟩⟩ = ([], Outcome.err PyErr.invalidParameter) :=
  c7_init_ipv4_validation ⟨some "Kitchen", some "8.8.8.8", none, []⟩
    ⟨false, none, [], [], []⟩
    ⟨⟨true, some true⟩, fun _ => ⟨false, false, false, false⟩, ⟨none, some []⟩⟩
    "8.8.8.8" rfl (Or.inr ⟨134744072, by decide, by decide⟩)

/-- C8: stop and pause dispatch to the same handler; each transport action
on an unknown room raises InvalidParameter with no device command, and on a
known room issues exactly the one corresponding transport command to the
first device of the room list. -/
theorem c8_transport_commands (rooms : List (String × List String))
    (dflt room? : Option String) (c : String) (rest : List String) :
    (dlookup "stop" actionsMap = some pauseHandler ∧
      dlookup "pause" actionsMap = some pauseHandler) ∧
    (roomDevices rooms (resolveRoom room? dflt) = none →
      do_pause rooms dflt room? = ([], Outcome.err PyErr.invalidParameter) ∧
      do_next rooms dflt room? = ([], Outcome.err PyErr.invalidParameter) ∧
      do_prev rooms dflt room? = ([], Outcome.err PyErr.invalidParameter) ∧
      do_mute rooms dflt room? = ([], Outcome.err PyErr.invalidParameter) ∧
      do_unmute rooms dflt room? = ([], Outcome.err PyErr.invalidParameter)) ∧
    (roomDevices rooms (resolveRoom room? dflt) = some (c :: rest) →
      do_pause rooms dflt room? = ([Event.pauseCmd c], Outcome.ok) ∧
      do_next rooms dflt room? = ([Event.nextCmd c], Outcome.ok) ∧
      do_prev rooms dflt room? = ([Event.prevCmd c], Outcome.ok) ∧
      do_mute rooms dflt room? = ([Event.setMute c true], Outcome.ok) ∧
      do_unmute rooms dflt room? = ([Event.setMute c false], Outcome.ok)) := by
  refine ⟨⟨rfl, rfl⟩, ?_, ?_⟩ <;> intro h
  · exact ⟨by rw [do_pause, h], by rw [do_next, h], by rw [do_prev, h],
      by rw [do_mute, h], by rw [do_unmute, h]⟩
  · exact ⟨by rw [do_pause, h], by rw [do_next, h], by rw [do_prev, h],
      by rw [do_mute, h], by rw [do_unmute, h]⟩

/-- Witness for C8: pause on the known room "Kitchen" and on an unknown
room. -/
theorem c8_transport_commands_witness :
    do_pause [("Kitchen", ["K"])] none (some "Kitchen") =
      ([Event.pauseCmd "K"], Outcome.ok) ∧
    do_pause [] none (some "Kitchen") = ([], Outcome.err PyErr.invalidParameter) :=
  ⟨((c8_transport_commands [("Kitchen", ["K"])] none (some "Kitchen") "K" []).2.2
      (by decide)).1,
   ((c8_transport_commands [] none (some "Kitchen") "K" []).2.1 (by decide)).1⟩

/-- C9: play with an item while the favorites table is empty raises an
unguarded IndexError (`sorted({}.keys(), reverse=True)[0]` at sonos.py line
156) — not one of the documented taxonomy errors and not a fallback to
resume: the trace holds no queue operation and no play command. -/
theorem c9_play_empty_favorites (rooms : List (String × List String))
    (dflt room? : Option String) (it : String) (oracle : String → MemberOracle)
    (c : String) (rest : List String)
    (hroom : roomDevices rooms (resolveRoom room? dflt) = some (c :: rest)) :
    (do_play rooms [] dflt room? (some it) oracle).2 = Outcome.err PyErr.indexError ∧
    (do_play rooms [] dflt room? (some it) oracle).1.filter Event.isQueueOrPlay = [] := by
  rw [do_play, hroom]
  simp only [List.map_nil]
  rw [show pick it [] = none from rfl]
  exact ⟨rfl, by simp [List.filter_cons, memberTraces_no_queue, Event.isQueueOrPlay]⟩

/-- Witness for C9: room "Kitchen", item given, empty favorites. -/
theorem c9_play_empty_favorites_witness :
    (do_play [("Kitchen", ["K"])] [] none (some "Kitchen") (some "Jazz")
        (fun _ => ⟨false, false, false, false⟩)).2 = Outcome.err PyErr.indexError ∧
    (do_play [("Kitchen", ["K"])] [] none (some "Kitchen") (some "Jazz")
        (fun _ => ⟨false, false, false, false⟩)).1.filter Event.isQueueOrPlay = [] :=
  c9_play_empty_favorites [("Kitchen", ["K"])] none (some "Kitchen") "Jazz"
    (fun _ => ⟨false, false, false, false⟩) "K" [] (by decide)

/-- C10 (counterexample): for action init, an empty-string room is not
equivalent to an omitted room: with `room=""` validation passes (the value
is not `None`) and init proceeds to discovery, while with `room` omitted
validation raises InvalidParameter before doing anything. -/
theorem c10_counterexample :
    runNeuron (some "init") ⟨some "", none, none, []⟩ ⟨false, none, [], [], []⟩
        ⟨⟨false, some true⟩, fun _ => ⟨false, false, false, false⟩,
          ⟨none, some []⟩⟩ ≠
      runNeuron (some "init") ⟨none, none, none, []⟩ ⟨false, none, [], [], []⟩
        ⟨⟨false, some true⟩, fun _ => ⟨false, false, false, false⟩,
          ⟨none, some []⟩⟩ := by
  decide

/-- C10 (amended): for every non-init action, an empty-string room
parameter is removed before dispatch and the invocation behaves exactly as
if the room were omitted, so the handlers fall back to the default room
recorded at init; since the scrub also guarantees the stored default is
never `""`, the empty string is never looked up in the room table. -/
theorem c10_empty_room_scrub (a : String) (ha : a ≠ "init")
    (ipv4 item : Option String) (rcfg : List (String × List String))
    (st : NeuronState) (o : Oracles) :
    scrubRoom ⟨some "", ipv4, item, rcfg⟩ = ⟨none, ipv4, item, rcfg⟩ ∧
    runNeuron (some a) ⟨some "", ipv4, item, rcfg⟩ st o =
      runNeuron (some a) ⟨none, ipv4, item, rcfg⟩ st o ∧
    (st.dfltRoom ≠ some "" → resolveRoom none st.dfltRoom ≠ some "") := by
  have hs : scrubRoom ⟨some "", ipv4, item, rcfg⟩ =
      scrubRoom ⟨none, ipv4, item, rcfg⟩ := by
    simp [scrubRoom]
  have hval : isParametersOk (some a) ⟨some "", ipv4, item, rcfg⟩ st =
      isParametersOk (some a) ⟨none, ipv4, item, rcfg⟩ st := by
    cases hd : dlookup a actionsMap with
    | none => simp [isParametersOk, hd]
    | some h => simp [isParametersOk, hd, ha]
  refine ⟨by simp [scrubRoom], ?_, ?_⟩
  · rw [runNeuron, runNeuron, hval, hs]
  · intro h
    simpa [resolveRoom] using h

/-- Witness for C10 at action play. -/
theorem c10_empty_room_scrub_witness :
    scrubRoom ⟨some "", none, none, []⟩ = ⟨none, none, none, []⟩ ∧
    runNeuron (some "play") ⟨some "", none, none, []⟩
        ⟨true, some "Kitchen", [("Kitchen", ["K"])], [], []⟩
        ⟨⟨true, some true⟩, fun _ => ⟨false, false, false, false⟩,
          ⟨none, some []⟩⟩ =
      runNeuron (some "play") ⟨none, none, none, []⟩
        ⟨true, some "Kitchen", [("Kitchen", ["K"])], [], []⟩
        ⟨⟨true, some true⟩, fun _ => ⟨false, false, false, false⟩,
          ⟨none, some []⟩⟩ ∧
    ((⟨true, some "Kitchen", [("Kitchen", ["K"])], [], []⟩ : NeuronState).dfltRoom ≠
        some "" →
      resolveRoom none
        (⟨true, some "Kitchen", [("Kitchen", ["K"])], [], []⟩ : NeuronState).dfltRoom ≠
        some "") :=
  c10_empty_room_scrub "play" (by decide) none none []
    ⟨true, some "Kitchen", [("Kitchen", ["K"])], [], []⟩
    ⟨⟨true, some true⟩, fun _ => ⟨false, false, false, false⟩, ⟨none, some []⟩⟩

end SonosSpec
